import Mathlib

/-!
Verification of the landing-gear controller of `Baseline_v5.0.py`.

The Python controller is embedded shallowly:
* `GearConfiguration`, `GearState`, timeline events and the controller record
  mirror the Python dataclass, enum and object fields; Python's arbitrary
  precision integers become `ℤ` and the `float` actuator speed becomes an
  exact rational `ℚ` (the spec fixes the arithmetic as exact division
  followed by truncation toward zero).
* the mutating methods become pure functions from a controller to a result
  record carrying the returned boolean, the updated controller, and the list
  of lines that the method printed through `log` (the embedding of the
  `print` effect).
* `time.sleep` only consumes wall-clock time and touches no controller
  field, so it has no counterpart in the embedding.
-/

inductive GearState
  | UP_LOCKED
  | TRANSITIONING_DOWN
  | DOWN_LOCKED
  | TRANSITIONING_UP
  | FAILURE_DETECTED
deriving DecidableEq, Repr

def GearState.name : GearState → String
  | .UP_LOCKED => "UP_LOCKED"
  | .TRANSITIONING_DOWN => "TRANSITIONING_DOWN"
  | .DOWN_LOCKED => "DOWN_LOCKED"
  | .TRANSITIONING_UP => "TRANSITIONING_UP"
  | .FAILURE_DETECTED => "FAILURE_DETECTED"

structure GearConfiguration where
  pump_latency_ms : ℤ
  actuator_speed_mm_per_100ms : ℚ
  extension_distance_mm : ℤ
  lock_time_ms : ℤ
  requirement_time_ms : ℤ
deriving DecidableEq, Repr

def BASELINE_CONFIG : GearConfiguration := ⟨200, 10, 700, 300, 8000⟩

def SLOW_CONFIG : GearConfiguration := ⟨500, 5, 700, 500, 8000⟩

/-- One entry of `self.timeline`: the dict
`\x7b"time_ms": ..., "state": ..., "event": ...\x7d` appended by `_record_event`. -/
structure TimelineEvent where
  time_ms : ℤ
  state : GearState
  event : String
deriving DecidableEq, Repr

structure LandingGearController where
  state : GearState
  config : GearConfiguration
  deployment_time_ms : ℤ
  fault_detected : Bool
  timeline : List TimelineEvent
deriving DecidableEq, Repr

/-- `LandingGearController.__init__`. -/
def initController (config : GearConfiguration) : LandingGearController :=
  ⟨GearState.UP_LOCKED, config, 0, false, []⟩

/-- The result of one command call: the returned boolean, the controller
after the call, and the lines printed by `log` during the call. -/
structure CmdResult where
  ok : Bool
  ctrl : LandingGearController
  logs : List String
deriving DecidableEq, Repr

/-- `LandingGearController.log`: the printed line, state-name prefixed. -/
def logLine (s : GearState) (message : String) : String :=
  "[" ++ s.name ++ "] " ++ message

/-- `LandingGearController._record_event`. -/
def record_event (c : LandingGearController) (event : String) : LandingGearController :=
  { c with timeline := c.timeline ++ [⟨c.deployment_time_ms, c.state, event⟩] }

/-- Python's `int()` applied to a rational value: truncation toward zero. -/
def pyInt (q : ℚ) : ℤ :=
  if 0 ≤ q then ⌊q⌋ else ⌈q⌉

/-- The actuator extension duration of phase 2, exactly as computed at the
start of the phase: `speed = actuator_speed_mm_per_100ms / 100.0` and then
`extension_time = int(extension_distance_mm / speed)`. -/
def extension_time_of (cfg : GearConfiguration) : ℤ :=
  let speed := cfg.actuator_speed_mm_per_100ms / 100
  pyInt ((cfg.extension_distance_mm : ℚ) / speed)

/-- The phase-duration sum of a complete deployment. -/
def total_time_of (cfg : GearConfiguration) : ℤ :=
  cfg.pump_latency_ms + extension_time_of cfg + cfg.lock_time_ms

/-- `LandingGearController._check_requirement`. -/
def check_requirement (c : LandingGearController) : Bool × LandingGearController × List String :=
  if c.deployment_time_ms > c.config.requirement_time_ms then
    let l := [logLine c.state ("⚠️  REQUIREMENT BREACH: " ++
      toString c.deployment_time_ms ++ "ms > " ++ toString c.config.requirement_time_ms ++ "ms")]
    let c := { c with state := GearState.FAILURE_DETECTED, fault_detected := true }
    let c := record_event c ("Requirement breach detected")
    (false, c, l)
  else
    let margin := c.config.requirement_time_ms - c.deployment_time_ms
    (true, c, [logLine c.state ("✓ Requirement check PASSED (" ++
      toString c.deployment_time_ms ++ "ms / " ++ toString c.config.requirement_time_ms ++
      "ms, margin: " ++ toString margin ++ "ms)")])

/-- `LandingGearController.command_gear_down` (deploy). -/
def command_gear_down (c : LandingGearController) : CmdResult :=
  if c.state = GearState.DOWN_LOCKED then
    ⟨false, c, [logLine c.state ("Command rejected - gear already down")]⟩
  else if c.state ≠ GearState.UP_LOCKED then
    ⟨false, c, [logLine c.state ("Command rejected - invalid state for deployment")]⟩
  else
    let l := [logLine c.state ("Command received: GEAR DOWN")]
    let c := { c with deployment_time_ms := 0, fault_detected := false,
                      timeline := ([] : List TimelineEvent) }
    let c := record_event c ("Deployment command issued")
    -- Phase 1: Hydraulic pump
    let c := { c with state := GearState.TRANSITIONING_DOWN }
    let pump_time := c.config.pump_latency_ms
    let l := l ++ [logLine c.state ("Hydraulic pump activating (" ++ toString pump_time ++ "ms)")]
    let c := { c with deployment_time_ms := c.deployment_time_ms + pump_time }
    let c := record_event c ("Pump ready (" ++ toString pump_time ++ "ms)")
    let r := check_requirement c
    let c := r.2.1
    let l := l ++ r.2.2
    if ¬ r.1 then ⟨false, c, l⟩
    else
      -- Phase 2: Actuator extension
      let extension_time := extension_time_of c.config
      let l := l ++ [logLine c.state ("Actuator extending (" ++ toString extension_time ++ "ms)")]
      let c := { c with deployment_time_ms := c.deployment_time_ms + extension_time }
      let c := record_event c ("Extension complete (" ++ toString extension_time ++ "ms)")
      let r := check_requirement c
      let c := r.2.1
      let l := l ++ r.2.2
      if ¬ r.1 then ⟨false, c, l⟩
      else
        -- Phase 3: Lock engagement
        let lock_time := c.config.lock_time_ms
        let l := l ++ [logLine c.state ("Engaging down-lock (" ++ toString lock_time ++ "ms)")]
        let c := { c with deployment_time_ms := c.deployment_time_ms + lock_time }
        let c := record_event c ("Lock engaged (" ++ toString lock_time ++ "ms)")
        let r := check_requirement c
        let c := r.2.1
        let l := l ++ r.2.2
        if ¬ r.1 then ⟨false, c, l⟩
        else
          -- Success
          let c := { c with state := GearState.DOWN_LOCKED }
          let margin := c.config.requirement_time_ms - c.deployment_time_ms
          let l := l ++ [logLine c.state ("✅ Deployment SUCCESSFUL - Total: " ++
            toString c.deployment_time_ms ++ "ms (Margin: " ++ toString margin ++ "ms)")]
          let c := record_event c ("Deployment complete - SUCCESS")
          ⟨true, c, l⟩

/-- `LandingGearController.command_gear_up` (retract). -/
def command_gear_up (c : LandingGearController) : CmdResult :=
  if c.state ≠ GearState.DOWN_LOCKED then
    ⟨false, c, [logLine c.state ("Command rejected - invalid state for retraction")]⟩
  else
    let l := [logLine c.state ("Command received: GEAR UP")]
    let c := { c with state := GearState.TRANSITIONING_UP }
    let l := l ++ [logLine c.state ("Gear retracting")]
    let c := { c with state := GearState.UP_LOCKED }
    let l := l ++ [logLine c.state ("Gear locked UP")]
    ⟨true, c, l⟩

/-- The two public commands of the controller. -/
inductive GearCommand
  | deployCmd
  | retractCmd
deriving DecidableEq, Repr

def runCommand (c : LandingGearController) : GearCommand → LandingGearController
  | .deployCmd => (command_gear_down c).ctrl
  | .retractCmd => (command_gear_up c).ctrl

def runCommands (c : LandingGearController) : List GearCommand → LandingGearController
  | [] => c
  | cmd :: rest => runCommands (runCommand c cmd) rest

theorem extension_time_SLOW : extension_time_of SLOW_CONFIG = 14000 := by
  unfold extension_time_of pyInt SLOW_CONFIG
  rw [if_pos (by norm_num)]
  norm_num

theorem extension_time_BASELINE : extension_time_of BASELINE_CONFIG = 7000 := by
  unfold extension_time_of pyInt BASELINE_CONFIG
  rw [if_pos (by norm_num)]
  norm_num

theorem deploy_breach_pump (cfg : GearConfiguration)
    (h1 : cfg.requirement_time_ms < cfg.pump_latency_ms) :
    (command_gear_down (initController cfg)).ok = false ∧
    (command_gear_down (initController cfg)).ctrl =
      ⟨GearState.FAILURE_DETECTED, cfg, cfg.pump_latency_ms, true,
       [⟨0, GearState.UP_LOCKED, "Deployment command issued"⟩,
        ⟨cfg.pump_latency_ms, GearState.TRANSITIONING_DOWN,
         "Pump ready (" ++ toString cfg.pump_latency_ms ++ "ms)"⟩,
        ⟨cfg.pump_latency_ms, GearState.FAILURE_DETECTED, "Requirement breach detected"⟩]⟩ := by
  unfold command_gear_down initController record_event check_requirement
  rw [if_neg (by simp), if_neg (by simp)]
  simp only [zero_add]
  rw [if_pos h1]
  simp [record_event]

theorem deploy_breach_extension (cfg : GearConfiguration)
    (h1 : cfg.pump_latency_ms ≤ cfg.requirement_time_ms)
    (h2 : cfg.requirement_time_ms < cfg.pump_latency_ms + extension_time_of cfg) :
    (command_gear_down (initController cfg)).ok = false ∧
    (command_gear_down (initController cfg)).ctrl =
      ⟨GearState.FAILURE_DETECTED, cfg, cfg.pump_latency_ms + extension_time_of cfg, true,
       [⟨0, GearState.UP_LOCKED, "Deployment command issued"⟩,
        ⟨cfg.pump_latency_ms, GearState.TRANSITIONING_DOWN,
         "Pump ready (" ++ toString cfg.pump_latency_ms ++ "ms)"⟩,
        ⟨cfg.pump_latency_ms + extension_time_of cfg, GearState.TRANSITIONING_DOWN,
         "Extension complete (" ++ toString (extension_time_of cfg) ++ "ms)"⟩,
        ⟨cfg.pump_latency_ms + extension_time_of cfg, GearState.FAILURE_DETECTED,
         "Requirement breach detected"⟩]⟩ := by
  unfold command_gear_down initController record_event check_requirement
  rw [if_neg (by simp), if_neg (by simp)]
  simp only [zero_add]
  rw [if_neg (not_lt.mpr h1)]
  simp only [zero_add]
  rw [if_pos h2]
  simp [record_event]

theorem deploy_breach_lock (cfg : GearConfiguration)
    (h1 : cfg.pump_latency_ms ≤ cfg.requirement_time_ms)
    (h2 : cfg.pump_latency_ms + extension_time_of cfg ≤ cfg.requirement_time_ms)
    (h3 : cfg.requirement_time_ms < total_time_of cfg) :
    (command_gear_down (initController cfg)).ok = false ∧
    (command_gear_down (initController cfg)).ctrl =
      ⟨GearState.FAILURE_DETECTED, cfg, total_time_of cfg, true,
       [⟨0, GearState.UP_LOCKED, "Deployment command issued"⟩,
        ⟨cfg.pump_latency_ms, GearState.TRANSITIONING_DOWN,
         "Pump ready (" ++ toString cfg.pump_latency_ms ++ "ms)"⟩,
        ⟨cfg.pump_latency_ms + extension_time_of cfg, GearState.TRANSITIONING_DOWN,
         "Extension complete (" ++ toString (extension_time_of cfg) ++ "ms)"⟩,
        ⟨total_time_of cfg, GearState.TRANSITIONING_DOWN,
         "Lock engaged (" ++ toString cfg.lock_time_ms ++ "ms)"⟩,
        ⟨total_time_of cfg, GearState.FAILURE_DETECTED,
         "Requirement breach detected"⟩]⟩ := by
  unfold command_gear_down initController record_event check_requirement total_time_of
  rw [if_neg (by simp), if_neg (by simp)]
  simp only [zero_add]
  rw [if_neg (not_lt.mpr h1)]
  simp only [zero_add]
  rw [if_neg (not_lt.mpr h2)]
  simp only [zero_add]
  have h3' : cfg.requirement_time_ms <
      cfg.pump_latency_ms + extension_time_of cfg + cfg.lock_time_ms := by
    simpa [total_time_of] using h3
  rw [if_pos h3']
  simp [record_event]

theorem deploy_success (cfg : GearConfiguration)
    (h1 : cfg.pump_latency_ms ≤ cfg.requirement_time_ms)
    (h2 : cfg.pump_latency_ms + extension_time_of cfg ≤ cfg.requirement_time_ms)
    (h3 : total_time_of cfg ≤ cfg.requirement_time_ms) :
    (command_gear_down (initController cfg)).ok = true ∧
    (command_gear_down (initController cfg)).ctrl =
      ⟨GearState.DOWN_LOCKED, cfg, total_time_of cfg, false,
       [⟨0, GearState.UP_LOCKED, "Deployment command issued"⟩,
        ⟨cfg.pump_latency_ms, GearState.TRANSITIONING_DOWN,
         "Pump ready (" ++ toString cfg.pump_latency_ms ++ "ms)"⟩,
        ⟨cfg.pump_latency_ms + extension_time_of cfg, GearState.TRANSITIONING_DOWN,
         "Extension complete (" ++ toString (extension_time_of cfg) ++ "ms)"⟩,
        ⟨total_time_of cfg, GearState.TRANSITIONING_DOWN,
         "Lock engaged (" ++ toString cfg.lock_time_ms ++ "ms)"⟩,
        ⟨total_time_of cfg, GearState.DOWN_LOCKED,
         "Deployment complete - SUCCESS"⟩]⟩ := by
  unfold command_gear_down initController record_event check_requirement total_time_of
  rw [if_neg (by simp), if_neg (by simp)]
  simp only [zero_add]
  rw [if_neg (not_lt.mpr h1)]
  simp only [zero_add]
  rw [if_neg (not_lt.mpr h2)]
  simp only [zero_add]
  have h3' : cfg.pump_latency_ms + extension_time_of cfg + cfg.lock_time_ms ≤
      cfg.requirement_time_ms := by
    simpa [total_time_of] using h3
  rw [if_neg (not_lt.mpr h3')]
  simp [record_event]

theorem extension_time_nonneg (cfg : GearConfiguration)
    (hs : 0 < cfg.actuator_speed_mm_per_100ms) (hd : 0 < cfg.extension_distance_mm) :
    0 ≤ extension_time_of cfg := by
  unfold extension_time_of pyInt
  have hq : 0 < (cfg.extension_distance_mm : ℚ) / (cfg.actuator_speed_mm_per_100ms / 100) :=
    div_pos (by exact_mod_cast hd) (div_pos hs (by norm_num))
  rw [if_pos hq.le]
  exact Int.floor_nonneg.mpr hq.le

/-- Both guards of `command_gear_down` only read `self.state`, and the body
overwrites every mutable field before reading it, so a call from `UP_LOCKED`
depends only on the configuration. -/
theorem deploy_from_up (c : LandingGearController) (h : c.state = GearState.UP_LOCKED) :
    command_gear_down c = command_gear_down (initController c.config) := by
  obtain ⟨st, cfg, t, f, tl⟩ := c
  cases h
  rfl

theorem deploy_rejected_down (c : LandingGearController) (h : c.state = GearState.DOWN_LOCKED) :
    command_gear_down c =
      ⟨false, c, [logLine c.state ("Command rejected - gear already down")]⟩ := by
  unfold command_gear_down
  rw [if_pos h]

theorem deploy_rejected_other (c : LandingGearController)
    (h1 : c.state ≠ GearState.DOWN_LOCKED) (h2 : c.state ≠ GearState.UP_LOCKED) :
    command_gear_down c =
      ⟨false, c, [logLine c.state ("Command rejected - invalid state for deployment")]⟩ := by
  unfold command_gear_down
  rw [if_neg h1, if_pos h2]

theorem retract_rejected (c : LandingGearController) (h : c.state ≠ GearState.DOWN_LOCKED) :
    command_gear_up c =
      ⟨false, c, [logLine c.state ("Command rejected - invalid state for retraction")]⟩ := by
  unfold command_gear_up
  rw [if_pos h]

theorem retract_success_eq (c : LandingGearController) (h : c.state = GearState.DOWN_LOCKED) :
    command_gear_up c =
      ⟨true, { c with state := GearState.UP_LOCKED },
       [logLine GearState.DOWN_LOCKED ("Command received: GEAR UP"),
        logLine GearState.TRANSITIONING_UP ("Gear retracting"),
        logLine GearState.UP_LOCKED ("Gear locked UP")]⟩ := by
  unfold command_gear_up
  rw [if_neg (not_not_intro h), h]
  rfl

theorem total_time_BASELINE : total_time_of BASELINE_CONFIG = 7500 := by
  unfold total_time_of
  rw [extension_time_BASELINE]
  decide

theorem total_time_SLOW : total_time_of SLOW_CONFIG = 15000 := by
  unfold total_time_of
  rw [extension_time_SLOW]
  decide

/-- C1: for every configuration with non-negative pump and lock times,
positive actuator speed, positive extension distance and positive
requirement time, `deploy()` from `UP_LOCKED` ends in `DOWN_LOCKED` with
`fault_detected = false` when the phase-duration sum is at most the
requirement, and in `FAILURE_DETECTED` with `fault_detected = true` when the
sum exceeds it. -/
theorem C1_threshold_law (c : LandingGearController) (hst : c.state = GearState.UP_LOCKED)
    (hp : 0 ≤ c.config.pump_latency_ms) (hl : 0 ≤ c.config.lock_time_ms)
    (hs : 0 < c.config.actuator_speed_mm_per_100ms) (hd : 0 < c.config.extension_distance_mm)
    (hr : 0 < c.config.requirement_time_ms) :
    (total_time_of c.config ≤ c.config.requirement_time_ms →
      (command_gear_down c).ctrl.state = GearState.DOWN_LOCKED ∧
      (command_gear_down c).ctrl.fault_detected = false) ∧
    (c.config.requirement_time_ms < total_time_of c.config →
      (command_gear_down c).ctrl.state = GearState.FAILURE_DETECTED ∧
      (command_gear_down c).ctrl.fault_detected = true) := by
  rw [deploy_from_up c hst]
  have hext := extension_time_nonneg c.config hs hd
  constructor
  · intro hle
    have hle' : c.config.pump_latency_ms + extension_time_of c.config + c.config.lock_time_ms ≤
        c.config.requirement_time_ms := by simpa [total_time_of] using hle
    have h1 : c.config.pump_latency_ms ≤ c.config.requirement_time_ms := by omega
    have h2 : c.config.pump_latency_ms + extension_time_of c.config ≤
        c.config.requirement_time_ms := by omega
    rw [(deploy_success c.config h1 h2 hle).2]
    exact ⟨rfl, rfl⟩
  · intro hgt
    rcases lt_or_le c.config.requirement_time_ms c.config.pump_latency_ms with hb1 | h1
    · rw [(deploy_breach_pump c.config hb1).2]
      exact ⟨rfl, rfl⟩
    · rcases lt_or_le c.config.requirement_time_ms
          (c.config.pump_latency_ms + extension_time_of c.config) with hb2 | h2
      · rw [(deploy_breach_extension c.config h1 hb2).2]
        exact ⟨rfl, rfl⟩
      · rw [(deploy_breach_lock c.config h1 h2 hgt).2]
        exact ⟨rfl, rfl⟩

theorem C1_threshold_law_witness :
    (command_gear_down (initController BASELINE_CONFIG)).ctrl.state = GearState.DOWN_LOCKED ∧
    (command_gear_down (initController BASELINE_CONFIG)).ctrl.fault_detected = false :=
  (C1_threshold_law (initController BASELINE_CONFIG) rfl (by decide) (by decide) (by decide)
    (by decide) (by decide)).1 (by rw [show (initController BASELINE_CONFIG).config =
      BASELINE_CONFIG from rfl, total_time_BASELINE]; decide)

theorem slow_breach_after_extension :
    SLOW_CONFIG.requirement_time_ms <
      SLOW_CONFIG.pump_latency_ms + extension_time_of SLOW_CONFIG := by
  rw [extension_time_SLOW]
  decide

/-- C2: the claim says the breach timeline of `SLOW_CONFIG` has exactly 3
recorded events, but phase B records "Extension complete" before its
requirement check runs, so the timeline has 4 events. -/
theorem C2_scenario_b_counterexample :
    ¬ ((command_gear_down (initController SLOW_CONFIG)).ctrl.timeline.length = 3) := by
  rw [(deploy_breach_extension SLOW_CONFIG (by decide) slow_breach_after_extension).2]
  decide

/-- C2 (amended): for `SLOW_CONFIG`, `deploy()` from the initial `UP_LOCKED`
state returns failure with final state `FAILURE_DETECTED`,
`fault_detected = true`, elapsed 14500 ms at the breach, the lock phase never
executed, and the timeline contains exactly 4 recorded events: deployment
command issued, pump ready, extension complete, requirement breach
detected. -/
theorem C2_scenario_b_amended :
    (command_gear_down (initController SLOW_CONFIG)).ok = false ∧
    (command_gear_down (initController SLOW_CONFIG)).ctrl.state = GearState.FAILURE_DETECTED ∧
    (command_gear_down (initController SLOW_CONFIG)).ctrl.fault_detected = true ∧
    (command_gear_down (initController SLOW_CONFIG)).ctrl.deployment_time_ms = 14500 ∧
    (command_gear_down (initController SLOW_CONFIG)).ctrl.timeline =
      [⟨0, GearState.UP_LOCKED, "Deployment command issued"⟩,
       ⟨500, GearState.TRANSITIONING_DOWN, "Pump ready (500ms)"⟩,
       ⟨14500, GearState.TRANSITIONING_DOWN, "Extension complete (14000ms)"⟩,
       ⟨14500, GearState.FAILURE_DETECTED, "Requirement breach detected"⟩] := by
  obtain ⟨hok, hctrl⟩ :=
    deploy_breach_extension SLOW_CONFIG (by decide) slow_breach_after_extension
  rw [hctrl] at *
  refine ⟨hok, rfl, rfl, ?_, ?_⟩
  · rw [extension_time_SLOW]
    decide
  · rw [extension_time_SLOW]
    decide

/-- C3: from `UP_LOCKED`, whenever the phase-duration sum exceeds the
requirement (equivalently, some post-phase requirement check fails),
`deploy()` returns failure with state `FAILURE_DETECTED` and
`fault_detected = true`, the elapsed time stops at the first breaching
partial sum (no later phase runs), and the last timeline event is the
requirement-breach event recorded at that elapsed time. -/
theorem C3_breach_aborts (c : LandingGearController) (hst : c.state = GearState.UP_LOCKED)
    (hp : 0 ≤ c.config.pump_latency_ms) (hl : 0 ≤ c.config.lock_time_ms)
    (hs : 0 < c.config.actuator_speed_mm_per_100ms) (hd : 0 < c.config.extension_distance_mm)
    (hb : c.config.requirement_time_ms < total_time_of c.config) :
    (command_gear_down c).ok = false ∧
    (command_gear_down c).ctrl.state = GearState.FAILURE_DETECTED ∧
    (command_gear_down c).ctrl.fault_detected = true ∧
    (command_gear_down c).ctrl.deployment_time_ms =
      (if c.config.requirement_time_ms < c.config.pump_latency_ms then
        c.config.pump_latency_ms
       else if c.config.requirement_time_ms <
           c.config.pump_latency_ms + extension_time_of c.config then
        c.config.pump_latency_ms + extension_time_of c.config
       else total_time_of c.config) ∧
    (command_gear_down c).ctrl.timeline.getLast? =
      some ⟨(command_gear_down c).ctrl.deployment_time_ms, GearState.FAILURE_DETECTED,
            "Requirement breach detected"⟩ := by
  rw [deploy_from_up c hst]
  rcases lt_or_le c.config.requirement_time_ms c.config.pump_latency_ms with hb1 | h1
  · obtain ⟨hok, hctrl⟩ := deploy_breach_pump c.config hb1
    rw [hctrl, if_pos hb1]
    exact ⟨hok, rfl, rfl, rfl, rfl⟩
  · rcases lt_or_le c.config.requirement_time_ms
        (c.config.pump_latency_ms + extension_time_of c.config) with hb2 | h2
    · obtain ⟨hok, hctrl⟩ := deploy_breach_extension c.config h1 hb2
      rw [hctrl, if_neg (not_lt.mpr h1), if_pos hb2]
      exact ⟨hok, rfl, rfl, rfl, rfl⟩
    · obtain ⟨hok, hctrl⟩ := deploy_breach_lock c.config h1 h2 hb
      rw [hctrl, if_neg (not_lt.mpr h1), if_neg (not_lt.mpr h2)]
      exact ⟨hok, rfl, rfl, rfl, rfl⟩

theorem C3_breach_aborts_witness :
    (command_gear_down (initController SLOW_CONFIG)).ok = false ∧
    (command_gear_down (initController SLOW_CONFIG)).ctrl.state = GearState.FAILURE_DETECTED ∧
    (command_gear_down (initController SLOW_CONFIG)).ctrl.fault_detected = true ∧
    (command_gear_down (initController SLOW_CONFIG)).ctrl.deployment_time_ms =
      (if SLOW_CONFIG.requirement_time_ms < SLOW_CONFIG.pump_latency_ms then
        SLOW_CONFIG.pump_latency_ms
       else if SLOW_CONFIG.requirement_time_ms <
           SLOW_CONFIG.pump_latency_ms + extension_time_of SLOW_CONFIG then
        SLOW_CONFIG.pump_latency_ms + extension_time_of SLOW_CONFIG
       else total_time_of SLOW_CONFIG) ∧
    (command_gear_down (initController SLOW_CONFIG)).ctrl.timeline.getLast? =
      some ⟨(command_gear_down (initController SLOW_CONFIG)).ctrl.deployment_time_ms,
            GearState.FAILURE_DETECTED, "Requirement breach detected"⟩ :=
  C3_breach_aborts (initController SLOW_CONFIG) rfl (by decide) (by decide) (by decide)
    (by decide) (by rw [show (initController SLOW_CONFIG).config = SLOW_CONFIG from rfl,
      total_time_SLOW]; decide)

/-- C4: if `deploy()` from `UP_LOCKED` returns success, the final elapsed
time equals `pump_latency_ms + int(extension_distance_mm /
(actuator_speed_mm_per_100ms/100)) + lock_time_ms`, the division truncating
toward zero. -/
theorem C4_sum_invariant (c : LandingGearController) (hst : c.state = GearState.UP_LOCKED)
    (hp : 0 ≤ c.config.pump_latency_ms) (hl : 0 ≤ c.config.lock_time_ms)
    (hs : 0 < c.config.actuator_speed_mm_per_100ms) (hd : 0 < c.config.extension_distance_mm)
    (hok : (command_gear_down c).ok = true) :
    (command_gear_down c).ctrl.deployment_time_ms = total_time_of c.config := by
  rw [deploy_from_up c hst] at hok ⊢
  rcases lt_or_le c.config.requirement_time_ms c.config.pump_latency_ms with hb1 | h1
  · rw [(deploy_breach_pump c.config hb1).1] at hok
    cases hok
  · rcases lt_or_le c.config.requirement_time_ms
        (c.config.pump_latency_ms + extension_time_of c.config) with hb2 | h2
    · rw [(deploy_breach_extension c.config h1 hb2).1] at hok
      cases hok
    · rcases lt_or_le c.config.requirement_time_ms (total_time_of c.config) with hb3 | h3
      · rw [(deploy_breach_lock c.config h1 h2 hb3).1] at hok
        cases hok
      · rw [(deploy_success c.config h1 h2 h3).2]

theorem C4_sum_invariant_witness :
    (command_gear_down (initController BASELINE_CONFIG)).ctrl.deployment_time_ms =
      total_time_of BASELINE_CONFIG :=
  C4_sum_invariant (initController BASELINE_CONFIG) rfl (by decide) (by decide) (by decide)
    (by decide)
    ((deploy_success BASELINE_CONFIG (by decide)
      (by rw [extension_time_BASELINE]; decide)
      (by rw [total_time_BASELINE]; decide)).1)

/-- C5: from any state other than `UP_LOCKED`, `deploy()` is rejected with
no mutation at all, and the guards are checked in order: `DOWN_LOCKED` gets
the already-deployed rejection line, every other non-`UP_LOCKED` state gets
the invalid-state rejection line. -/
theorem C5_reject_non_up (c : LandingGearController) (h : c.state ≠ GearState.UP_LOCKED) :
    (command_gear_down c).ok = false ∧
    (command_gear_down c).ctrl = c ∧
    (c.state = GearState.DOWN_LOCKED →
      (command_gear_down c).logs = [logLine c.state ("Command rejected - gear already down")]) ∧
    (c.state ≠ GearState.DOWN_LOCKED →
      (command_gear_down c).logs =
        [logLine c.state ("Command rejected - invalid state for deployment")]) := by
  by_cases hdl : c.state = GearState.DOWN_LOCKED
  · rw [deploy_rejected_down c hdl]
    exact ⟨rfl, rfl, fun _ => rfl, fun hn => absurd hdl hn⟩
  · rw [deploy_rejected_other c hdl h]
    exact ⟨rfl, rfl, fun hd => absurd hd hdl, fun _ => rfl⟩

def deployedController : LandingGearController := ⟨GearState.DOWN_LOCKED, BASELINE_CONFIG, 7500, false, []⟩

theorem C5_reject_non_up_witness :
    (command_gear_down deployedController).ok = false ∧
    (command_gear_down deployedController).ctrl = deployedController ∧
    (command_gear_down deployedController).logs =
      [logLine GearState.DOWN_LOCKED ("Command rejected - gear already down")] := by
  obtain ⟨h1, h2, h3, _⟩ := C5_reject_non_up deployedController (by decide)
  exact ⟨h1, h2, h3 rfl⟩

/-- C6: `FAILURE_DETECTED` is terminal: both commands are rejected there
without mutating the controller, and no finite command sequence leaves the
state. -/
theorem C6_failure_terminal (c : LandingGearController)
    (h : c.state = GearState.FAILURE_DETECTED) (cmds : List GearCommand) :
    (command_gear_down c).ok = false ∧ (command_gear_down c).ctrl = c ∧
    (command_gear_up c).ok = false ∧ (command_gear_up c).ctrl = c ∧
    runCommands c cmds = c := by
  have hnd : c.state ≠ GearState.DOWN_LOCKED := by rw [h]; decide
  have hnu : c.state ≠ GearState.UP_LOCKED := by rw [h]; decide
  have hdown := deploy_rejected_other c hnd hnu
  have hup := retract_rejected c hnd
  refine ⟨by rw [hdown], by rw [hdown], by rw [hup], by rw [hup], ?_⟩
  induction cmds with
  | nil => rfl
  | cons cmd rest ih =>
    have hcmd : runCommand c cmd = c := by
      cases cmd
      · show (command_gear_down c).ctrl = c
        rw [hdown]
      · show (command_gear_up c).ctrl = c
        rw [hup]
    show runCommands (runCommand c cmd) rest = c
    rw [hcmd]
    exact ih

def faultedController : LandingGearController :=
  ⟨GearState.FAILURE_DETECTED, SLOW_CONFIG, 14500, true, []⟩

theorem C6_failure_terminal_witness :
    (command_gear_down faultedController).ok = false ∧
    (command_gear_down faultedController).ctrl = faultedController ∧
    (command_gear_up faultedController).ok = false ∧
    (command_gear_up faultedController).ctrl = faultedController ∧
    runCommands faultedController [GearCommand.deployCmd, GearCommand.retractCmd] =
      faultedController :=
  C6_failure_terminal faultedController rfl [GearCommand.deployCmd, GearCommand.retractCmd]

/-- C7: for a configuration whose phase-duration sum is within the
requirement, `deploy()` then `retract()` on a freshly constructed controller
both succeed and return the controller's state to `UP_LOCKED`. -/
theorem C7_round_trip (cfg : GearConfiguration)
    (hp : 0 ≤ cfg.pump_latency_ms) (hl : 0 ≤ cfg.lock_time_ms)
    (hs : 0 < cfg.actuator_speed_mm_per_100ms) (hd : 0 < cfg.extension_distance_mm)
    (hsum : total_time_of cfg ≤ cfg.requirement_time_ms) :
    (command_gear_down (initController cfg)).ok = true ∧
    (command_gear_up (command_gear_down (initController cfg)).ctrl).ok = true ∧
    (command_gear_up (command_gear_down (initController cfg)).ctrl).ctrl.state =
      GearState.UP_LOCKED := by
  have hext := extension_time_nonneg cfg hs hd
  have hle' : cfg.pump_latency_ms + extension_time_of cfg + cfg.lock_time_ms ≤
      cfg.requirement_time_ms := by simpa [total_time_of] using hsum
  have h1 : cfg.pump_latency_ms ≤ cfg.requirement_time_ms := by omega
  have h2 : cfg.pump_latency_ms + extension_time_of cfg ≤ cfg.requirement_time_ms := by omega
  obtain ⟨hok, hctrl⟩ := deploy_success cfg h1 h2 hsum
  refine ⟨hok, ?_, ?_⟩ <;> rw [hctrl, retract_success_eq _ rfl]

theorem C7_round_trip_witness :
    (command_gear_down (initController BASELINE_CONFIG)).ok = true ∧
    (command_gear_up (command_gear_down (initController BASELINE_CONFIG)).ctrl).ok = true ∧
    (command_gear_up (command_gear_down (initController BASELINE_CONFIG)).ctrl).ctrl.state =
      GearState.UP_LOCKED :=
  C7_round_trip BASELINE_CONFIG (by decide) (by decide) (by decide) (by decide)
    (by rw [total_time_BASELINE]; decide)

/-- C8: `retract()` from `DOWN_LOCKED` succeeds, ends in `UP_LOCKED` — the
same state a freshly constructed controller has — and leaves the timeline,
elapsed time and fault flag untouched; from any other state it is rejected
with no mutation. -/
theorem C8_retract_spec (c : LandingGearController) :
    (c.state = GearState.DOWN_LOCKED →
      (command_gear_up c).ok = true ∧
      (command_gear_up c).ctrl.state = GearState.UP_LOCKED ∧
      (command_gear_up c).ctrl.state = (initController c.config).state ∧
      (command_gear_up c).ctrl.deployment_time_ms = c.deployment_time_ms ∧
      (command_gear_up c).ctrl.fault_detected = c.fault_detected ∧
      (command_gear_up c).ctrl.timeline = c.timeline) ∧
    (c.state ≠ GearState.DOWN_LOCKED →
      (command_gear_up c).ok = false ∧ (command_gear_up c).ctrl = c) := by
  constructor
  · intro h
    rw [retract_success_eq c h]
    exact ⟨rfl, rfl, rfl, rfl, rfl, rfl⟩
  · intro h
    rw [retract_rejected c h]
    exact ⟨rfl, rfl⟩

theorem C8_retract_spec_witness :
    ((command_gear_up deployedController).ok = true ∧
     (command_gear_up deployedController).ctrl.state = GearState.UP_LOCKED ∧
     (command_gear_up deployedController).ctrl.state =
       (initController deployedController.config).state ∧
     (command_gear_up deployedController).ctrl.deployment_time_ms =
       deployedController.deployment_time_ms ∧
     (command_gear_up deployedController).ctrl.fault_detected =
       deployedController.fault_detected ∧
     (command_gear_up deployedController).ctrl.timeline = deployedController.timeline) ∧
    ((command_gear_up faultedController).ok = false ∧
     (command_gear_up faultedController).ctrl = faultedController) :=
  ⟨(C8_retract_spec deployedController).1 rfl,
   (C8_retract_spec faultedController).2 (by decide)⟩

/-- C9: determinism — two `deploy()` calls from `UP_LOCKED` controllers that
share a configuration produce the same final elapsed time and the same
timeline event sequence, whatever the controllers' other fields held. -/
theorem C9_determinism (c₁ c₂ : LandingGearController) (hcfg : c₁.config = c₂.config)
    (h1 : c₁.state = GearState.UP_LOCKED) (h2 : c₂.state = GearState.UP_LOCKED) :
    (command_gear_down c₁).ctrl.deployment_time_ms =
      (command_gear_down c₂).ctrl.deployment_time_ms ∧
    (command_gear_down c₁).ctrl.timeline = (command_gear_down c₂).ctrl.timeline := by
  rw [deploy_from_up c₁ h1, deploy_from_up c₂ h2, hcfg]
  exact ⟨rfl, rfl⟩

def reusedController : LandingGearController :=
  ⟨GearState.UP_LOCKED, BASELINE_CONFIG, 999, false, [⟨0, GearState.DOWN_LOCKED, "stale"⟩]⟩

theorem C9_determinism_witness :
    (command_gear_down (initController BASELINE_CONFIG)).ctrl.deployment_time_ms =
      (command_gear_down reusedController).ctrl.deployment_time_ms ∧
    (command_gear_down (initController BASELINE_CONFIG)).ctrl.timeline =
      (command_gear_down reusedController).ctrl.timeline :=
  C9_determinism (initController BASELINE_CONFIG) reusedController rfl rfl rfl

theorem deploy_inv (c : LandingGearController)
    (hinv : c.fault_detected = true ↔ c.state = GearState.FAILURE_DETECTED) :
    ((command_gear_down c).ctrl.fault_detected = true ↔
     (command_gear_down c).ctrl.state = GearState.FAILURE_DETECTED) := by
  by_cases hdl : c.state = GearState.DOWN_LOCKED
  · rw [deploy_rejected_down c hdl]
    exact hinv
  · by_cases hu : c.state = GearState.UP_LOCKED
    · rw [deploy_from_up c hu]
      rcases lt_or_le c.config.requirement_time_ms c.config.pump_latency_ms with hb1 | h1
      · rw [(deploy_breach_pump c.config hb1).2]
        simp
      · rcases lt_or_le c.config.requirement_time_ms
            (c.config.pump_latency_ms + extension_time_of c.config) with hb2 | h2
        · rw [(deploy_breach_extension c.config h1 hb2).2]
          simp
        · rcases lt_or_le c.config.requirement_time_ms (total_time_of c.config) with hb3 | h3
          · rw [(deploy_breach_lock c.config h1 h2 hb3).2]
            simp
          · rw [(deploy_success c.config h1 h2 h3).2]
            simp
    · rw [deploy_rejected_other c hdl hu]
      exact hinv

theorem retract_inv (c : LandingGearController)
    (hinv : c.fault_detected = true ↔ c.state = GearState.FAILURE_DETECTED) :
    ((command_gear_up c).ctrl.fault_detected = true ↔
     (command_gear_up c).ctrl.state = GearState.FAILURE_DETECTED) := by
  by_cases hdl : c.state = GearState.DOWN_LOCKED
  · have hf : c.fault_detected = false := by
      rcases Bool.eq_false_or_eq_true c.fault_detected with h | h
      · exact absurd (hinv.mp h) (by rw [hdl]; decide)
      · exact h
    rw [retract_success_eq c hdl]
    simp [hf]
  · rw [retract_rejected c hdl]
    exact hinv

theorem runCommands_inv : ∀ (cmds : List GearCommand) (c : LandingGearController),
    (c.fault_detected = true ↔ c.state = GearState.FAILURE_DETECTED) →
    ((runCommands c cmds).fault_detected = true ↔
     (runCommands c cmds).state = GearState.FAILURE_DETECTED)
  | [], _, hc => hc
  | cmd :: rest, c, hc => by
    cases cmd
    · exact runCommands_inv rest _ (deploy_inv c hc)
    · exact runCommands_inv rest _ (retract_inv c hc)

/-- C10: starting from a freshly constructed controller, after any finite
sequence of commands `fault_detected` is true exactly when the state is
`FAILURE_DETECTED`. -/
theorem C10_fault_iff_failure (cfg : GearConfiguration) (cmds : List GearCommand) :
    ((runCommands (initController cfg) cmds).fault_detected = true ↔
     (runCommands (initController cfg) cmds).state = GearState.FAILURE_DETECTED) :=
  runCommands_inv cmds (initController cfg) (by simp [initController])
